import Mathlib

/-!
Verification of the session-scoped OAuth credential handling, response
reshaping and serialization logic of the `spotify-insights-ai` repository,
shallowly embedded in Lean 4.

The embedding follows `spotify_gemini_streamlit.py` (cache handler,
`SpotifyTrack`, `safe_serialize`, `SpotifyGeminiAssistant._setup_spotify`,
`logout`) and `src/gemini_client.py` (`GeminiClient.analyze_data` and its
model configuration).  External effects (the network, the clock, the
Spotify/Gemini SDK calls) are passed in as explicit oracle inputs, so every
definition is a pure, executable function.
-/

namespace SpotifyInsights

/-- A cached OAuth credential record, i.e. the `token_info` dict stored by
spotipy in the session cache: access token, refresh token, expiry as epoch
seconds and granted scope. -/
structure TokenInfo where
  access_token : String
  refresh_token : String
  expires_at : Int
  scope : String
deriving DecidableEq, Repr

/-- Modelled from the spotipy dependency (`SpotifyAuthBase.is_token_expired`),
which the repository calls at lines 425 and 435 of
`spotify_gemini_streamlit.py`: a token counts as expired when its
`expires_at` is less than 60 seconds away from `now`
(`token_info["expires_at"] - now < 60`). -/
def is_token_expired (now : Int) (t : TokenInfo) : Bool :=
  t.expires_at - now < 60

/-- The environment `_setup_spotify` runs in once control reaches the cached
token check (line 420): the session-cached record, the current clock, and
the outcome the provider's refresh endpoint would give (`some t` = refresh
succeeds returning `t`; `none` = `refresh_access_token` raises). -/
structure SetupEnv where
  cached : Option TokenInfo
  now : Int
  refreshResult : Option TokenInfo
deriving DecidableEq, Repr

/-- What the token handling of `_setup_spotify` (lines 420-462) did:
how many times the refresh endpoint was invoked, the session cache
afterwards, whether `is_authenticated` was set, and the record under which
the `spotipy.Spotify` client was created (`none` = no client, API calls
cannot proceed). -/
structure SetupResult where
  refreshAttempts : Nat
  cache : Option TokenInfo
  is_authenticated : Bool
  usedToken : Option TokenInfo
deriving DecidableEq, Repr

/-- Embedding of `SpotifyGeminiAssistant._setup_spotify`, lines 420-462 of
`spotify_gemini_streamlit.py`: read the cached token; if present and
expired, make a single refresh attempt, storing the new record on success
and clearing the cache on failure; then create the authenticated Spotify
client exactly when a non-expired record remains.  (The auth-code exchange
branch above line 420 either reruns the script before this point or leaves
the cache unchanged, so this is the state every execution reaches.) -/
def setup_spotify (env : SetupEnv) : SetupResult :=
  let step :=
    match env.cached with
    | some t =>
      if is_token_expired env.now t then
        match env.refreshResult with
        | some t2 => (some t2, some t2, 1)
        | none => (none, (none : Option TokenInfo), 1)
      else (some t, some t, 0)
    | none => (none, none, 0)
  match step with
  | (some t, cache1, attempts) =>
    if is_token_expired env.now t then
      ⟨attempts, cache1, false, none⟩
    else
      ⟨attempts, cache1, true, some t⟩
  | (none, cache1, attempts) => ⟨attempts, cache1, false, none⟩

/-- The per-user Streamlit session state touched by the cache handler and
`logout`: the cached credential record plus the user keys. -/
structure SessionState where
  spotify_token : Option TokenInfo
  user_name : Option String
  user_image : Option String
  user_id : Option String
deriving DecidableEq, Repr

/-- Embedding of `StreamlitSessionCacheHandler.get_cached_token`: return the
token stored in the session. -/
def get_cached_token (st : SessionState) : Option TokenInfo :=
  st.spotify_token

/-- Embedding of `StreamlitSessionCacheHandler.save_token_to_cache`: store
the token in the session. -/
def save_token_to_cache (st : SessionState) (t : TokenInfo) : SessionState :=
  { st with spotify_token := some t }

/-- Embedding of `StreamlitSessionCacheHandler.clear_token`: reset the
session token to `None`. -/
def clear_token (st : SessionState) : SessionState :=
  { st with spotify_token := none }

/-- Embedding of `SpotifyGeminiAssistant.logout` (lines 553-570): clear the
token via the cache handler and delete the user keys from the session. -/
def logout (st : SessionState) : SessionState :=
  let st1 := clear_token st
  { st1 with user_name := none, user_image := none, user_id := none }

/-- A Python `datetime` value, abstracted to what the serializer uses of it:
the string its `isoformat()` method returns. -/
structure PyDatetime where
  iso : String
deriving DecidableEq, Repr

/-- Embedding of the `SpotifyTrack` dataclass (lines 261-273 of
`spotify_gemini_streamlit.py`). -/
structure SpotifyTrack where
  id : String
  name : String
  artist : String
  album : String
  duration_ms : Int
  popularity : Int
  release_date : Option String
  image_url : Option String
  played_at : Option String
  is_playing : Bool
deriving DecidableEq, Repr

/-- Zero-padding to width 2, as Python's format spec `02d` renders the
(always non-negative) seconds component. -/
def pad2 (s : String) : String :=
  if s.length < 2 then "0" ++ s else s

/-- Embedding of `SpotifyTrack.duration_minutes`: minutes is the floor
division of `duration_ms` by 60000, seconds the remainder divided by 1000,
rendered as minutes, a colon, and two-digit seconds.  Python's `//` floors
and its `%` takes the divisor's sign, hence `Int.fdiv` and `Int.emod`. -/
def SpotifyTrack.duration_minutes (t : SpotifyTrack) : String :=
  toString (t.duration_ms.fdiv 60000) ++ ":" ++
    pad2 (toString ((t.duration_ms.emod 60000).fdiv 1000))

/-- A Python runtime value as `safe_serialize` can receive it: native JSON
scalars, datetimes, `SpotifyTrack` instances, arbitrary objects exposing a
`to_dict` method (carrying the value that method returns), lists, tuples,
sets, string-keyed dicts, and any other non-serializable leaf (carrying its
`str()` form). -/
inductive PyVal where
  | str (s : String)
  | int (n : Int)
  | bool (b : Bool)
  | none
  | datetime (d : PyDatetime)
  | track (t : SpotifyTrack)
  | withToDict (d : PyVal)
  | list (xs : List PyVal)
  | tuple (xs : List PyVal)
  | set (xs : List PyVal)
  | dict (kvs : List (String × PyVal))
  | other (s : String)
deriving Repr

/-- Option-valued string fields of the dataclass as dict values: Python
`None` is JSON `null`. -/
def optStr : Option String → PyVal
  | some s => .str s
  | Option.none => .none

/-- Embedding of `SpotifyTrack.to_dict` (lines 282-296): the flat mapping
with the eleven listed keys, `duration` being the `M:SS` rendering. -/
def SpotifyTrack.to_dict (t : SpotifyTrack) : List (String × PyVal) :=
  [("id", .str t.id), ("name", .str t.name), ("artist", .str t.artist),
   ("album", .str t.album), ("duration", .str t.duration_minutes),
   ("duration_ms", .int t.duration_ms), ("popularity", .int t.popularity),
   ("release_date", optStr t.release_date), ("image_url", optStr t.image_url),
   ("played_at", optStr t.played_at), ("is_playing", .bool t.is_playing)]

mutual

/-- Embedding of `safe_serialize` (lines 231-257): `SpotifyTrack` and other
`to_dict`-bearing objects are replaced by their `to_dict()` result (the
latter without further recursion, exactly as the code does), datetimes by
their isoformat string, lists/tuples/sets by the list of serialized
elements, dicts by the dict of serialized values (keys untouched); leaves
that `json.dumps` accepts pass through, any other leaf falls back to its
`str()` form. -/
def safe_serialize : PyVal → PyVal
  | .track t => .dict t.to_dict
  | .withToDict d => d
  | .datetime d => .str d.iso
  | .list xs => .list (serializeList xs)
  | .tuple xs => .list (serializeList xs)
  | .set xs => .list (serializeList xs)
  | .dict kvs => .dict (serializeKVs kvs)
  | .str s => .str s
  | .int n => .int n
  | .bool b => .bool b
  | .none => .none
  | .other s => .str s

/-- Elementwise `safe_serialize` over a Python list. -/
def serializeList : List PyVal → List PyVal
  | [] => []
  | x :: xs => safe_serialize x :: serializeList xs

/-- Valuewise `safe_serialize` over the entries of a Python dict. -/
def serializeKVs : List (String × PyVal) → List (String × PyVal)
  | [] => []
  | (k, v) :: kvs => (k, safe_serialize v) :: serializeKVs kvs

end

mutual

/-- A value made only of JSON-native scalars, lists and string-keyed dicts —
what one pass of a correct recursive serializer should produce. -/
def isNativeTree : PyVal → Bool
  | .str _ => true
  | .int _ => true
  | .bool _ => true
  | .none => true
  | .list xs => isNativeList xs
  | .dict kvs => isNativeKVs kvs
  | _ => false

/-- Listwise `isNativeTree`. -/
def isNativeList : List PyVal → Bool
  | [] => true
  | x :: xs => isNativeTree x && isNativeList xs

/-- Valuewise `isNativeTree` over dict entries. -/
def isNativeKVs : List (String × PyVal) → Bool
  | [] => true
  | (_, v) :: kvs => isNativeTree v && isNativeKVs kvs

end

mutual

/-- A value containing no generic `to_dict`-bearing object (`SpotifyTrack`
instances are allowed: the code handles them explicitly and their dict is
flat and native). -/
def noCustom : PyVal → Bool
  | .withToDict _ => false
  | .list xs => noCustomList xs
  | .tuple xs => noCustomList xs
  | .set xs => noCustomList xs
  | .dict kvs => noCustomKVs kvs
  | _ => true

/-- Listwise `noCustom`. -/
def noCustomList : List PyVal → Bool
  | [] => true
  | x :: xs => noCustom x && noCustomList xs

/-- Valuewise `noCustom` over dict entries. -/
def noCustomKVs : List (String × PyVal) → Bool
  | [] => true
  | (_, v) :: kvs => noCustom v && noCustomKVs kvs

end

/-- The tagged result every API Facade operation returns: a success variant
with data and metadata, or an error variant with a message. -/
inductive TaggedResult (α : Type) where
  | success (data : α) (metadata : List (String × String))
  | error (message : String)
deriving Repr

/-- The six read endpoints the API Facade wraps. -/
inductive Endpoint where
  | topTracks
  | topArtists
  | recentlyPlayed
  | currentlyPlaying
  | playlists
  | profile
deriving DecidableEq, Repr

/-- Display name of each endpoint, used in error messages. -/
def endpointName : Endpoint → String
  | .topTracks => "top tracks"
  | .topArtists => "top artists"
  | .recentlyPlayed => "recently played"
  | .currentlyPlaying => "currently playing"
  | .playlists => "playlists"
  | .profile => "profile"

/-- Reading the `items` field of a provider response, as the facade bodies
do with `results['items']`; a malformed payload (not a mapping, or missing
the key) raises, which the surrounding handler turns into the error
variant. -/
def extractItems (p : PyVal) : Except String PyVal :=
  match p with
  | .dict kvs =>
    match kvs.lookup "items" with
    | some v => Except.ok v
    | Option.none => Except.error "KeyError: items"
  | _ => Except.error "TypeError: response is not a mapping"

/-- Per-endpoint reshaping of the raw provider payload.  The list endpoints
read `items`; the currently-playing and profile endpoints use the payload
directly. -/
def reshapeEndpoint : Endpoint → PyVal → Except String PyVal
  | .topTracks, p => extractItems p
  | .topArtists, p => extractItems p
  | .recentlyPlayed, p => extractItems p
  | .playlists, p => extractItems p
  | .currentlyPlaying, p => Except.ok p
  | .profile, p => Except.ok p

/-- Modelled from the spec: the API Facade operation bodies (`get_top_tracks`
and the five sibling methods of `SpotifyGeminiAssistant`) are elided from
the repository snapshot — only their call sites remain, the class keeping a
comment in place of the methods.  Following section 4.3 of the spec, each
operation wraps the upstream call: any upstream exception becomes the error
variant, whose message prefixes a fixed description of the failed fetch to
the exception text; a well-formed response is reshaped and returned as the
success variant with metadata. -/
def endpointCall (ep : Endpoint) (upstream : Except String PyVal) : TaggedResult PyVal :=
  match upstream with
  | .error e => .error ("Erro ao buscar " ++ endpointName ep ++ ": " ++ e)
  | .ok payload =>
    match reshapeEndpoint ep payload with
    | .ok d => .success d [("endpoint", endpointName ep)]
    | .error e => .error ("Erro ao buscar " ++ endpointName ep ++ ": " ++ e)

/-- Modelled from the spec: `get_top_tracks` itself, absent from the
snapshot, is the top-tracks instance of the facade over already-parsed
track items — on success each provider item becomes a `SpotifyTrack` and
the data list holds their `to_dict` mappings (this part is the source's
`SpotifyTrack.to_dict`), with limit/time-range metadata. -/
def get_top_tracks (limit : Nat) (time_range : String)
    (upstream : Except String (List SpotifyTrack)) :
    TaggedResult (List (List (String × PyVal))) :=
  match upstream with
  | .error e => .error ("Erro ao buscar top tracks: " ++ e)
  | .ok tracks =>
    .success (tracks.map SpotifyTrack.to_dict)
      [("endpoint", "top_tracks"), ("limit", toString limit),
       ("time_range", time_range), ("total", toString tracks.length)]

/-- The four harm categories whose thresholds both clients configure. -/
inductive HarmCategory where
  | harassment
  | hateSpeech
  | sexuallyExplicit
  | dangerousContent
deriving DecidableEq, Repr

/-- The safety threshold values of the generative SDK. -/
inductive HarmBlockThreshold where
  | blockNone
  | blockOnlyHigh
  | blockMediumAndAbove
  | blockLowAndAbove
deriving DecidableEq, Repr

/-- Embedding of the `generation_config` literal of
`GeminiClient._setup_client` (`src/gemini_client.py` lines 22-26), keyword
arguments with their literal source values: temperature, top-p and max
output tokens — and nothing else. -/
def geminiClientGenerationConfig : List (String × String) :=
  [("temperature", "0.7"), ("top_p", "0.95"), ("max_output_tokens", "2048")]

/-- Embedding of the `safety_settings` literal of
`GeminiClient._setup_client` (lines 27-32): all four categories at
BLOCK_NONE. -/
def geminiClientSafetySettings : List (HarmCategory × HarmBlockThreshold) :=
  [(.harassment, .blockNone), (.hateSpeech, .blockNone),
   (.sexuallyExplicit, .blockNone), (.dangerousContent, .blockNone)]

/-- Embedding of the `generation_config` literal of
`SpotifyGeminiAssistant.__init__` (`spotify_gemini_streamlit.py` lines
315-320): temperature, top-p, top-k and max output tokens. -/
def assistantGenerationConfig : List (String × String) :=
  [("temperature", "0.7"), ("top_p", "0.95"), ("top_k", "40"),
   ("max_output_tokens", "2048")]

/-- Embedding of the `safety_settings` literal of
`SpotifyGeminiAssistant.__init__` (lines 322-327): all four categories at
BLOCK_NONE. -/
def assistantSafetySettings : List (HarmCategory × HarmBlockThreshold) :=
  [(.harassment, .blockNone), (.hateSpeech, .blockNone),
   (.sexuallyExplicit, .blockNone), (.dangerousContent, .blockNone)]

/-- A request as it reaches the generative API: the sampling configuration
and safety settings the model object was constructed with, plus the
composed prompt. -/
structure GenRequest where
  generation_config : List (String × String)
  safety_settings : List (HarmCategory × HarmBlockThreshold)
  prompt : String
deriving DecidableEq, Repr

/-- Embedding of the prompt composition inside `GeminiClient.analyze_data`
(lines 38-46): the f-string preamble, the question and the string form of
the context dict. -/
def composePrompt (query : String) (context : String) : String :=
  "\n            Como especialista em " ++
  "análise musical, analise estes dados do Spotify:\n            \n" ++
  "            Pergunta: " ++ query ++ "\n            \n" ++
  "            Dados: " ++ context ++ "\n            \n" ++
  "            Forneça uma resposta informativa e útil.\n            "

/-- The request `GeminiClient.analyze_data` submits: the model object is
built once in `_setup_client` with the fixed config and safety literals,
so every call carries exactly those plus the composed prompt. -/
def geminiClientRequest (query : String) (context : String) : GenRequest :=
  ⟨geminiClientGenerationConfig, geminiClientSafetySettings,
   composePrompt query context⟩

/-- The request the streamlit assistant submits through its `self.model`:
the fixed config and safety literals of `__init__` plus whatever prompt the
caller composed. -/
def assistantRequest (prompt : String) : GenRequest :=
  ⟨assistantGenerationConfig, assistantSafetySettings, prompt⟩

set_option linter.unusedVariables false in
/-- Embedding of `GeminiClient.analyze_data` (lines 35-53): the
`generate_content` call and the `.text` access are the oracle
`modelResponse` (`ok text` = the model's text; `error e` = any exception,
with `e` its `str()` form); on success the text is returned verbatim, on
any failure the single `except` clause returns the fixed error string with
the exception text appended. -/
def analyze_data (query : String) (context : String)
    (modelResponse : Except String String) : String :=
  match modelResponse with
  | .ok text => text
  | .error e => "Desculpe, ocorreu um erro: " ++ e

/-- A concrete provider item, for instantiating the top-tracks theorem. -/
def sampleTrack (k : Nat) : SpotifyTrack :=
  ⟨"id" ++ toString k, "Song " ++ toString k, "Artist " ++ toString k,
   "Album " ++ toString k, 200000 + 1000 * (k : Int), 50,
   some "2020-01-01", Option.none, Option.none, false⟩

/-- A concrete five-item provider response. -/
def wTracks : List SpotifyTrack :=
  [sampleTrack 0, sampleTrack 1, sampleTrack 2, sampleTrack 3, sampleTrack 4]

end SpotifyInsights

namespace SpotifyInsights

/-- C1: an expired cached record triggers exactly one refresh attempt, and
any record the client is then created with came from the refresh endpoint,
never the expired cached record itself without a refresh first. -/
theorem expired_token_single_refresh (env : SetupEnv) (t : TokenInfo)
    (hc : env.cached = some t) (hpast : t.expires_at < env.now) :
    (setup_spotify env).refreshAttempts = 1 ∧
    (∀ u, (setup_spotify env).usedToken = some u → env.refreshResult = some u) := by
  have hexp : is_token_expired env.now t = true := by
    simp [is_token_expired]
    omega
  unfold setup_spotify
  rw [hc]
  simp [hexp]
  cases hr : env.refreshResult with
  | none => simp
  | some t2 =>
    by_cases h2 : is_token_expired env.now t2 <;> simp [h2]

/-- Witness for `expired_token_single_refresh` at a concrete expired record. -/
theorem expired_token_single_refresh_witness :
    (setup_spotify ⟨some ⟨"a", "r", 100, "s"⟩, 1000, some ⟨"b", "r", 5000, "s"⟩⟩).refreshAttempts = 1 ∧
    (∀ u, (setup_spotify ⟨some ⟨"a", "r", 100, "s"⟩, 1000, some ⟨"b", "r", 5000, "s"⟩⟩).usedToken = some u →
      (some (⟨"b", "r", 5000, "s"⟩ : TokenInfo) : Option TokenInfo) = some u) :=
  expired_token_single_refresh ⟨some ⟨"a", "r", 100, "s"⟩, 1000, some ⟨"b", "r", 5000, "s"⟩⟩
    ⟨"a", "r", 100, "s"⟩ rfl (by decide)

/-- C2 counterexample: a cached record whose `expires_at` is 30 seconds in
the future (strictly later than `now`) still triggers a refresh call, and
the client is not created with the stored record, because spotipy's expiry
check uses a 60-second safety margin. -/
theorem future_token_refresh_counterexample :
    (1000 : Int) < (1030 : Int) ∧
    (setup_spotify ⟨some ⟨"a", "r", 1030, "s"⟩, 1000, some ⟨"b", "r", 5000, "s"⟩⟩).refreshAttempts ≠ 0 ∧
    (setup_spotify ⟨some ⟨"a", "r", 1030, "s"⟩, 1000, some ⟨"b", "r", 5000, "s"⟩⟩).usedToken ≠
      some ⟨"a", "r", 1030, "s"⟩ := by
  refine ⟨by decide, ?_, ?_⟩ <;> decide

/-- C2 (amended): a cached record whose `expires_at` clears the 60-second
safety margin (`now + 60 ≤ expires_at`) causes no refresh call; the setup
proceeds to create the authenticated client with the stored record and
leaves the cache unchanged. -/
theorem valid_token_no_refresh (env : SetupEnv) (t : TokenInfo)
    (hc : env.cached = some t) (hfresh : env.now + 60 ≤ t.expires_at) :
    (setup_spotify env).refreshAttempts = 0 ∧
    (setup_spotify env).is_authenticated = true ∧
    (setup_spotify env).usedToken = some t ∧
    (setup_spotify env).cache = some t := by
  have hexp : is_token_expired env.now t = false := by
    simp [is_token_expired]
    omega
  unfold setup_spotify
  rw [hc]
  simp [hexp]

/-- Witness for `valid_token_no_refresh` at a concrete fresh record. -/
theorem valid_token_no_refresh_witness :
    (setup_spotify ⟨some ⟨"a", "r", 5000, "s"⟩, 1000, none⟩).refreshAttempts = 0 ∧
    (setup_spotify ⟨some ⟨"a", "r", 5000, "s"⟩, 1000, none⟩).is_authenticated = true ∧
    (setup_spotify ⟨some ⟨"a", "r", 5000, "s"⟩, 1000, none⟩).usedToken = some ⟨"a", "r", 5000, "s"⟩ ∧
    (setup_spotify ⟨some ⟨"a", "r", 5000, "s"⟩, 1000, none⟩).cache = some ⟨"a", "r", 5000, "s"⟩ :=
  valid_token_no_refresh ⟨some ⟨"a", "r", 5000, "s"⟩, 1000, none⟩ ⟨"a", "r", 5000, "s"⟩
    rfl (by decide)

/-- C5: when the cached record is expired and the single refresh attempt
fails, the setup clears the cache, ends unauthenticated with no Spotify
client, and made exactly one refresh attempt (no retry). -/
theorem failed_refresh_clears_cache (env : SetupEnv) (t : TokenInfo)
    (hc : env.cached = some t) (hpast : t.expires_at < env.now)
    (hfail : env.refreshResult = none) :
    (setup_spotify env).cache = none ∧
    (setup_spotify env).is_authenticated = false ∧
    (setup_spotify env).usedToken = none ∧
    (setup_spotify env).refreshAttempts = 1 := by
  have hexp : is_token_expired env.now t = true := by
    simp [is_token_expired]
    omega
  unfold setup_spotify
  rw [hc]
  simp [hexp, hfail]

/-- Witness for `failed_refresh_clears_cache` at a concrete expired record
whose refresh fails. -/
theorem failed_refresh_clears_cache_witness :
    (setup_spotify ⟨some ⟨"a", "r", 100, "s"⟩, 1000, none⟩).cache = none ∧
    (setup_spotify ⟨some ⟨"a", "r", 100, "s"⟩, 1000, none⟩).is_authenticated = false ∧
    (setup_spotify ⟨some ⟨"a", "r", 100, "s"⟩, 1000, none⟩).usedToken = none ∧
    (setup_spotify ⟨some ⟨"a", "r", 100, "s"⟩, 1000, none⟩).refreshAttempts = 1 :=
  failed_refresh_clears_cache ⟨some ⟨"a", "r", 100, "s"⟩, 1000, none⟩ ⟨"a", "r", 100, "s"⟩
    rfl (by decide) rfl

/-- C4: clearing the credential cache — directly via `clear_token` or through
`logout` — makes a subsequent `get_cached_token` return absent, for every
session state. -/
theorem clear_then_get_absent (st : SessionState) :
    get_cached_token (clear_token st) = none ∧
    get_cached_token (logout st) = none := by
  constructor <;> rfl

/-- The dict `SpotifyTrack.to_dict` produces holds only JSON-native
values. -/
theorem to_dict_native (t : SpotifyTrack) : isNativeKVs t.to_dict = true := by
  cases hr : t.release_date <;> cases hi : t.image_url <;> cases hp : t.played_at <;>
    simp [SpotifyTrack.to_dict, isNativeKVs, isNativeTree, optStr, hr, hi, hp]

mutual

/-- One serialization pass over a value without generic `to_dict` objects
yields a tree of JSON-native leaves, lists and dicts. -/
theorem serialize_native (x : PyVal) (h : noCustom x = true) :
    isNativeTree (safe_serialize x) = true := by
  cases x with
  | track t => simpa [safe_serialize, isNativeTree] using to_dict_native t
  | withToDict d => simp [noCustom] at h
  | datetime d => rfl
  | list xs =>
    simpa [safe_serialize, isNativeTree] using
      serializeList_native xs (by simpa [noCustom] using h)
  | tuple xs =>
    simpa [safe_serialize, isNativeTree] using
      serializeList_native xs (by simpa [noCustom] using h)
  | set xs =>
    simpa [safe_serialize, isNativeTree] using
      serializeList_native xs (by simpa [noCustom] using h)
  | dict kvs =>
    simpa [safe_serialize, isNativeTree] using
      serializeKVs_native kvs (by simpa [noCustom] using h)
  | str s => rfl
  | int n => rfl
  | bool b => rfl
  | none => rfl
  | other s => rfl

/-- Listwise version of `serialize_native`. -/
theorem serializeList_native (xs : List PyVal) (h : noCustomList xs = true) :
    isNativeList (serializeList xs) = true := by
  cases xs with
  | nil => rfl
  | cons x xs =>
    rw [noCustomList, Bool.and_eq_true] at h
    rw [serializeList, isNativeList, Bool.and_eq_true]
    exact ⟨serialize_native x h.1, serializeList_native xs h.2⟩

/-- Entrywise version of `serialize_native`. -/
theorem serializeKVs_native (kvs : List (String × PyVal)) (h : noCustomKVs kvs = true) :
    isNativeKVs (serializeKVs kvs) = true := by
  cases kvs with
  | nil => rfl
  | cons kv kvs =>
    obtain ⟨k, v⟩ := kv
    rw [noCustomKVs, Bool.and_eq_true] at h
    rw [serializeKVs, isNativeKVs, Bool.and_eq_true]
    exact ⟨serialize_native v h.1, serializeKVs_native kvs h.2⟩

end

mutual

/-- Serialization is the identity on trees that are already JSON-native. -/
theorem serialize_of_native (x : PyVal) (h : isNativeTree x = true) :
    safe_serialize x = x := by
  cases x with
  | list xs =>
    rw [isNativeTree] at h
    rw [safe_serialize, serializeList_of_native xs h]
  | dict kvs =>
    rw [isNativeTree] at h
    rw [safe_serialize, serializeKVs_of_native kvs h]
  | str s => rfl
  | int n => rfl
  | bool b => rfl
  | none => rfl
  | track t => simp [isNativeTree] at h
  | withToDict d => simp [isNativeTree] at h
  | datetime d => simp [isNativeTree] at h
  | tuple xs => simp [isNativeTree] at h
  | set xs => simp [isNativeTree] at h
  | other s => simp [isNativeTree] at h

/-- Listwise version of `serialize_of_native`. -/
theorem serializeList_of_native (xs : List PyVal) (h : isNativeList xs = true) :
    serializeList xs = xs := by
  cases xs with
  | nil => rfl
  | cons x xs =>
    rw [isNativeList, Bool.and_eq_true] at h
    rw [serializeList, serialize_of_native x h.1, serializeList_of_native xs h.2]

/-- Entrywise version of `serialize_of_native`. -/
theorem serializeKVs_of_native (kvs : List (String × PyVal)) (h : isNativeKVs kvs = true) :
    serializeKVs kvs = kvs := by
  cases kvs with
  | nil => rfl
  | cons kv kvs =>
    obtain ⟨k, v⟩ := kv
    rw [isNativeKVs, Bool.and_eq_true] at h
    rw [serializeKVs, serialize_of_native v h.1, serializeKVs_of_native kvs h.2]

end

/-- C7 counterexample: an object exposing `to_dict` whose dict holds a
timestamp leaf. `safe_serialize` passes the `to_dict` result through
unrecursed, so the non-JSON-native datetime leaf survives in the output
instead of appearing as its string form. -/
theorem serialize_to_dict_passthrough_counterexample :
    safe_serialize (PyVal.withToDict (.dict [("timestamp", .datetime ⟨"2024-01-01T00:00:00"⟩)])) =
      PyVal.dict [("timestamp", .datetime ⟨"2024-01-01T00:00:00"⟩)] ∧
    isNativeTree (safe_serialize
      (PyVal.withToDict (.dict [("timestamp", .datetime ⟨"2024-01-01T00:00:00"⟩)]))) = false ∧
    safe_serialize (PyVal.withToDict (.dict [("timestamp", .datetime ⟨"2024-01-01T00:00:00"⟩)])) ≠
      PyVal.dict [("timestamp", .str "2024-01-01T00:00:00")] := by
  refine ⟨rfl, rfl, ?_⟩
  simp [safe_serialize]

/-- C7 (amended): `safe_serialize` is total, and on every input containing
no generic `to_dict`-bearing object its output is a tree of JSON-native
leaves, lists and dicts — every non-native leaf having been replaced by its
string form (datetimes by their isoformat, any other leaf by its `str()`
text). -/
theorem safe_serialize_total_native (x : PyVal) (h : noCustom x = true) :
    isNativeTree (safe_serialize x) = true ∧
    (∀ s, safe_serialize (PyVal.other s) = PyVal.str s) ∧
    (∀ d, safe_serialize (PyVal.datetime d) = PyVal.str d.iso) :=
  ⟨serialize_native x h, fun _ => rfl, fun _ => rfl⟩

/-- Witness for `safe_serialize_total_native` on a concrete nested mapping
holding a timestamp and an unserializable leaf. -/
theorem safe_serialize_total_native_witness :
    noCustom (PyVal.dict [("when", .datetime ⟨"2024-05-01T12:00:00"⟩),
      ("vals", .list [.int 1, .other "object at 0x1"])]) = true ∧
    (isNativeTree (safe_serialize (PyVal.dict [("when", .datetime ⟨"2024-05-01T12:00:00"⟩),
      ("vals", .list [.int 1, .other "object at 0x1"])])) = true ∧
     (∀ s, safe_serialize (PyVal.other s) = PyVal.str s) ∧
     (∀ d, safe_serialize (PyVal.datetime d) = PyVal.str d.iso)) :=
  ⟨rfl, safe_serialize_total_native _ rfl⟩

/-- C10 counterexample: on an object exposing `to_dict` whose dict holds a
timestamp, one pass returns the dict with the raw datetime, while a second
pass converts that leaf to its isoformat string — so `safe_serialize` is
not idempotent as claimed. -/
theorem serialize_not_idempotent_counterexample :
    safe_serialize (safe_serialize
      (PyVal.withToDict (.dict [("t", .datetime ⟨"2024-01-01T00:00:00"⟩)]))) ≠
    safe_serialize
      (PyVal.withToDict (.dict [("t", .datetime ⟨"2024-01-01T00:00:00"⟩)])) := by
  simp [safe_serialize, serializeKVs]

/-- C10 (amended): on every input containing no generic `to_dict`-bearing
object (`SpotifyTrack` values included, their dict being flat and native),
one `safe_serialize` pass is a fixed point of JSON-native leaves, lists and
dicts, so a second pass changes nothing. -/
theorem safe_serialize_idempotent (x : PyVal) (h : noCustom x = true) :
    safe_serialize (safe_serialize x) = safe_serialize x :=
  serialize_of_native _ (serialize_native x h)

/-- Witness for `safe_serialize_idempotent` on a concrete nested value with
a track, a timestamp and a set. -/
theorem safe_serialize_idempotent_witness :
    noCustom (PyVal.list [.track ⟨"i1", "Song", "Artist", "Album", 225000, 80,
      some "2001-01-01", Option.none, Option.none, false⟩,
      .set [.datetime ⟨"2024-05-01T12:00:00"⟩]]) = true ∧
    safe_serialize (safe_serialize (PyVal.list [.track ⟨"i1", "Song", "Artist", "Album", 225000, 80,
      some "2001-01-01", Option.none, Option.none, false⟩,
      .set [.datetime ⟨"2024-05-01T12:00:00"⟩]])) =
    safe_serialize (PyVal.list [.track ⟨"i1", "Song", "Artist", "Album", 225000, 80,
      some "2001-01-01", Option.none, Option.none, false⟩,
      .set [.datetime ⟨"2024-05-01T12:00:00"⟩]]) :=
  ⟨rfl, safe_serialize_idempotent _ rfl⟩

/-- The two-digit zero-padded rendering of any seconds value below 60 has
length exactly 2. -/
theorem pad2_twoDigit : ∀ n : Nat, n < 60 →
    (pad2 (toString (Int.ofNat n))).length = 2 := by decide

/-- C6: `get_top_tracks(limit=5)` on a provider response of 5 items returns
the success variant whose data has length 5, each item exposing `name`,
`artist` and `duration`, the latter being minutes, a colon and two-digit
seconds derived from `duration_ms`. -/
theorem get_top_tracks_five (tracks : List SpotifyTrack) (h5 : tracks.length = 5) :
    get_top_tracks 5 "medium_term" (Except.ok tracks) =
      TaggedResult.success (tracks.map SpotifyTrack.to_dict)
        [("endpoint", "top_tracks"), ("limit", "5"),
         ("time_range", "medium_term"), ("total", "5")] ∧
    (tracks.map SpotifyTrack.to_dict).length = 5 ∧
    ∀ t ∈ tracks,
      t.to_dict.lookup "name" = some (.str t.name) ∧
      t.to_dict.lookup "artist" = some (.str t.artist) ∧
      t.to_dict.lookup "duration" = some (.str t.duration_minutes) ∧
      ∃ m s : Int, 0 ≤ s ∧ s < 60 ∧
        t.duration_minutes = toString m ++ ":" ++ pad2 (toString s) ∧
        (pad2 (toString s)).length = 2 := by
  refine ⟨?_, by simp [h5], ?_⟩
  · simp only [get_top_tracks, h5]
    rfl
  intro t ht
  refine ⟨rfl, rfl, rfl, t.duration_ms.fdiv 60000,
    (t.duration_ms.emod 60000).fdiv 1000, ?_, ?_, rfl, ?_⟩
  · have hm : 0 ≤ t.duration_ms.emod 60000 := Int.emod_nonneg _ (by norm_num)
    rw [Int.fdiv_eq_ediv _ (by norm_num)]
    omega
  · have hm : 0 ≤ t.duration_ms.emod 60000 := Int.emod_nonneg _ (by norm_num)
    have hm2 : t.duration_ms.emod 60000 < 60000 := Int.emod_lt_of_pos _ (by norm_num)
    rw [Int.fdiv_eq_ediv _ (by norm_num)]
    omega
  · have hm : 0 ≤ t.duration_ms.emod 60000 := Int.emod_nonneg _ (by norm_num)
    have hm2 : t.duration_ms.emod 60000 < 60000 := Int.emod_lt_of_pos _ (by norm_num)
    have hs0 : 0 ≤ (t.duration_ms.emod 60000).fdiv 1000 := by
      rw [Int.fdiv_eq_ediv _ (by norm_num)]
      omega
    have hs60 : (t.duration_ms.emod 60000).fdiv 1000 < 60 := by
      rw [Int.fdiv_eq_ediv _ (by norm_num)]
      omega
    have heq : (t.duration_ms.emod 60000).fdiv 1000 =
        Int.ofNat ((t.duration_ms.emod 60000).fdiv 1000).toNat :=
      (Int.toNat_of_nonneg hs0).symm
    rw [heq]
    exact pad2_twoDigit _ (by omega)

/-- Witness for `get_top_tracks_five` on a concrete five-item response. -/
theorem get_top_tracks_five_witness :
    wTracks.length = 5 ∧
    (get_top_tracks 5 "medium_term" (Except.ok wTracks) =
      TaggedResult.success (wTracks.map SpotifyTrack.to_dict)
        [("endpoint", "top_tracks"), ("limit", "5"),
         ("time_range", "medium_term"), ("total", "5")] ∧
    (wTracks.map SpotifyTrack.to_dict).length = 5 ∧
    ∀ t ∈ wTracks,
      t.to_dict.lookup "name" = some (.str t.name) ∧
      t.to_dict.lookup "artist" = some (.str t.artist) ∧
      t.to_dict.lookup "duration" = some (.str t.duration_minutes) ∧
      ∃ m s : Int, 0 ≤ s ∧ s < 60 ∧
        t.duration_minutes = toString m ++ ":" ++ pad2 (toString s) ∧
        (pad2 (toString s)).length = 2) :=
  ⟨rfl, get_top_tracks_five wTracks rfl⟩

/-- A string with a non-empty left part stays non-empty after
concatenation. -/
theorem append_ne_empty_of_left_pos (s t : String) (h : 0 < s.length) :
    s ++ t ≠ "" := by
  intro he
  have h2 := congrArg String.length he
  rw [String.length_append] at h2
  have h0 : "".length = 0 := rfl
  omega

/-- C3: every API Facade operation is total on every upstream outcome: an
upstream exception (network error, 4xx/5xx) yields the error variant with a
non-empty message, a malformed payload is likewise caught into the error
variant (never an exception to the caller), and a well-formed response
yields the success variant with data and metadata. -/
theorem api_facade_tagged (ep : Endpoint) (up : Except String PyVal) :
    ((∃ d m, endpointCall ep up = .success d m) ∨
      (∃ msg, endpointCall ep up = .error msg ∧ msg ≠ "")) ∧
    (∀ e, up = Except.error e →
      ∃ msg, endpointCall ep up = .error msg ∧ msg ≠ "") ∧
    (∀ p d, up = Except.ok p → reshapeEndpoint ep p = Except.ok d →
      endpointCall ep up = .success d [("endpoint", endpointName ep)]) := by
  have hpos : ∀ e : String, ("Erro ao buscar " ++ endpointName ep ++ ": " ++ e) ≠ "" := by
    intro e
    apply append_ne_empty_of_left_pos
    rw [String.length_append, String.length_append]
    have h15 : "Erro ao buscar ".length = 15 := rfl
    have hc : ": ".length = 2 := rfl
    omega
  refine ⟨?_, ?_, ?_⟩
  · cases up with
    | error e => exact Or.inr ⟨_, rfl, hpos e⟩
    | ok p =>
      cases hr : reshapeEndpoint ep p with
      | ok d =>
        exact Or.inl ⟨d, [("endpoint", endpointName ep)], by simp [endpointCall, hr]⟩
      | error e => exact Or.inr ⟨_, by simp [endpointCall, hr], hpos e⟩
  · intro e he
    subst he
    exact ⟨_, rfl, hpos e⟩
  · intro p d hp hr
    subst hp
    simp [endpointCall, hr]

/-- Witness for `api_facade_tagged`: a network failure on the top-tracks
endpoint yields the error variant with a non-empty message. -/
theorem api_facade_tagged_witness :
    ∃ msg, endpointCall Endpoint.topTracks (Except.error "connection reset") =
      TaggedResult.error msg ∧ msg ≠ "" :=
  (api_facade_tagged Endpoint.topTracks
    (Except.error "connection reset")).2.1 "connection reset" rfl

/-- C8: `analyze_data` returns the model's text verbatim on success; on any
failure it returns the fixed error string built from the exception text —
the same single handler for every kind of failure — and never raises
(totality of the embedding). -/
theorem analyze_data_contract :
    (∀ query context text,
      analyze_data query context (Except.ok text) = text) ∧
    (∀ query context e,
      analyze_data query context (Except.error e) =
        "Desculpe, ocorreu um erro: " ++ e) ∧
    (∀ q c q' c' e,
      analyze_data q c (Except.error e) = analyze_data q' c' (Except.error e)) :=
  ⟨fun _ _ _ => rfl, fun _ _ _ => rfl, fun _ _ _ _ _ => rfl⟩

/-- C9 counterexample: the minimal client's generation config sets no top-k
at all, while the streamlit assistant's does — so it is false that every
Insight Generator request sets temperature, top-p, top-k and max output
length. -/
theorem gemini_client_no_topk_counterexample :
    (geminiClientRequest "What are my top genres?" "data").generation_config.lookup "top_k" =
      Option.none ∧
    (assistantRequest "prompt").generation_config.lookup "top_k" = some "40" :=
  ⟨rfl, rfl⟩

/-- C9 (amended): both clients submit every request with their fixed,
call-independent sampling configuration and permissive (BLOCK_NONE) safety
thresholds on all four harm categories; the streamlit assistant's config
sets temperature, top-p, top-k and max output length, the minimal
GeminiClient's sets temperature, top-p and max output length but no
top-k. -/
theorem generation_config_fixed (query context prompt : String) :
    (geminiClientRequest query context).generation_config = geminiClientGenerationConfig ∧
    (geminiClientRequest query context).safety_settings = geminiClientSafetySettings ∧
    (assistantRequest prompt).generation_config = assistantGenerationConfig ∧
    (assistantRequest prompt).safety_settings = assistantSafetySettings ∧
    assistantGenerationConfig.lookup "temperature" = some "0.7" ∧
    assistantGenerationConfig.lookup "top_p" = some "0.95" ∧
    assistantGenerationConfig.lookup "top_k" = some "40" ∧
    assistantGenerationConfig.lookup "max_output_tokens" = some "2048" ∧
    geminiClientGenerationConfig.lookup "temperature" = some "0.7" ∧
    geminiClientGenerationConfig.lookup "top_p" = some "0.95" ∧
    geminiClientGenerationConfig.lookup "max_output_tokens" = some "2048" ∧
    geminiClientGenerationConfig.lookup "top_k" = Option.none ∧
    (geminiClientSafetySettings.all fun pr => pr.2 == HarmBlockThreshold.blockNone) = true ∧
    (assistantSafetySettings.all fun pr => pr.2 == HarmBlockThreshold.blockNone) = true :=
  ⟨rfl, rfl, rfl, rfl, rfl, rfl, rfl, rfl, rfl, rfl, rfl, rfl, rfl, rfl⟩

end SpotifyInsights
